import Mathlib

/-!
Verification of the Transtector CME boot/recovery controller.

Shallow embedding of `src/cmeinit/__main__.py` (the CME initialization
script): the reset-button hold classifier, the shutdown cleanup routine,
the boot stage pipeline, the docker image version selector and the
threaded module supervisor.  Each Python routine is translated into an
executable Lean definition; machine behaviour that the script only
observes (GPIO levels, the filesystem markers, the docker registry) is
made an explicit parameter or an explicit state record.
-/

namespace CmeInit

/-! ## Hold classifier (`reset`, lines 50-109)

The `reset` callback runs after a debounced falling edge has been
confirmed (lines 54-56).  From line 66 on it polls the reset line in a
loop, measuring the elapsed hold time and updating three booleans, and
finally hands the triple to `restart` (line 109).

Time is modelled in whole poll ticks: the tick counter plays the role of
`elapsed_seconds = time.time() - reset_start_seconds`, and the pressed
level of `GPIO_N_RESET` at a given elapsed time is an arbitrary boolean
function (`true` = the line reads `GPIO.LOW`, i.e. the button is held).
The three `Config.RECOVERY` thresholds are parameters of the model; the
claims instantiate them at `3, 8, 15`.
-/

/-- The three `Config.RECOVERY` hold thresholds used by `reset`
(lines 83, 90, 97). -/
structure RecoveryConfig where
  RESET_REBOOT_SECONDS : Nat
  RESET_RECOVERY_SECONDS : Nat
  RESET_FACTORY_SECONDS : Nat
deriving DecidableEq

/-- The threshold configuration of the testable properties:
`T_reboot = 3`, `T_recovery = 8`, `T_factory = 15` seconds. -/
def cmeThresholds : RecoveryConfig :=
  { RESET_REBOOT_SECONDS := 3, RESET_RECOVERY_SECONDS := 8, RESET_FACTORY_SECONDS := 15 }

/-- The three booleans `recovery_mode`, `factory_reset`, `power_off`
maintained by `reset` (lines 71-73) and passed to `restart` (line 109). -/
structure ResetFlags where
  recovery_mode : Bool
  factory_reset : Bool
  power_off : Bool
deriving DecidableEq

/-- One pass through the body of the `reset` poll loop (lines 80-104) at
elapsed time `e`: `elapsed > RESET_REBOOT_SECONDS` sets `recovery_mode`
(line 86), `elapsed > RESET_RECOVERY_SECONDS` sets `factory_reset`
(line 93), and `elapsed > RESET_FACTORY_SECONDS` sets `power_off` while
clearing the other two flags (lines 99-101).  The `if not recovery_mode`
/ `if not factory_reset` guards only gate the log line and the GPIO
write, so re-setting an already-true flag is the identity, as here. -/
def resetPollBody (cfg : RecoveryConfig) (e : Nat) (f : ResetFlags) : ResetFlags :=
  let f1 := if cfg.RESET_REBOOT_SECONDS < e then { f with recovery_mode := true } else f
  let f2 := if cfg.RESET_RECOVERY_SECONDS < e then { f1 with factory_reset := true } else f1
  if cfg.RESET_FACTORY_SECONDS < e then
    { recovery_mode := false, factory_reset := false, power_off := true }
  else f2

/-- The `reset` poll loop exactly as written on line 79:

`while GPIO.input(GPIO_N_RESET) == GPIO.LOW or not power_off:`

so an iteration runs whenever the line is still pressed *or* `power_off`
is still false.  `pressed e = true` models `GPIO.input == GPIO.LOW` at
elapsed time `e`; the condition is re-read at the top of every
iteration, the body updates the flags, and elapsed time advances by one
tick (`time.sleep(0.02)`, line 104).  `fuel` bounds the number of
iterations examined; `none` means the loop was still running when the
fuel ran out. -/
def resetPollLoop (cfg : RecoveryConfig) (pressed : Nat → Bool) :
    Nat → Nat → ResetFlags → Option ResetFlags
  | 0, _, _ => none
  | fuel + 1, e, f =>
    if pressed e || !f.power_off then
      resetPollLoop cfg pressed fuel (e + 1) (resetPollBody cfg e f)
    else
      some f

/-- The triple of flags `reset` hands to `restart` (line 109): the poll
loop run from elapsed time `0` with all three flags false (lines 66-73). -/
def resetIntent (cfg : RecoveryConfig) (pressed : Nat → Bool) (fuel : Nat) :
    Option ResetFlags :=
  resetPollLoop cfg pressed fuel 0
    { recovery_mode := false, factory_reset := false, power_off := false }

/-- A synthetic held-then-released input: the reset line reads pressed
(`GPIO.LOW`) at every elapsed time strictly below `tRel` and released
(`GPIO.HIGH`) from `tRel` on. -/
def heldUntil (tRel : Nat) (e : Nat) : Bool := decide (e < tRel)

/-- The flags at the top of iteration `n` of the poll loop started at
elapsed time `e0` with flags `f0`. -/
def resetFlagsIter (cfg : RecoveryConfig) (e0 : Nat) (f0 : ResetFlags) : Nat → ResetFlags
  | 0 => f0
  | n + 1 => resetPollBody cfg (e0 + n) (resetFlagsIter cfg e0 f0 n)

theorem resetFlagsIter_shift (cfg : RecoveryConfig) (e0 : Nat) (f0 : ResetFlags) (j : Nat) :
    resetFlagsIter cfg (e0 + 1) (resetPollBody cfg e0 f0) j = resetFlagsIter cfg e0 f0 (j + 1) := by
  induction j with
  | zero => rfl
  | succ j ih =>
    show resetPollBody cfg (e0 + 1 + j) (resetFlagsIter cfg (e0 + 1) (resetPollBody cfg e0 f0) j)
        = resetPollBody cfg (e0 + (j + 1)) (resetFlagsIter cfg e0 f0 (j + 1))
    rw [ih]
    have : e0 + 1 + j = e0 + (j + 1) := by omega
    rw [this]

/-- Running the poll loop `n` iterations forward, provided the loop
condition of line 79 holds at the top of each of them. -/
theorem resetPollLoop_advance (cfg : RecoveryConfig) (pressed : Nat → Bool) :
    ∀ (n fuel e : Nat) (f : ResetFlags),
      (∀ j, j < n → (pressed (e + j) || !(resetFlagsIter cfg e f j).power_off) = true) →
      resetPollLoop cfg pressed (n + fuel) e f
        = resetPollLoop cfg pressed fuel (e + n) (resetFlagsIter cfg e f n) := by
  intro n
  induction n with
  | zero => intro fuel e f _; simp [resetFlagsIter]
  | succ n ih =>
    intro fuel e f hcond
    have hstep : (pressed (e + 0) || !(resetFlagsIter cfg e f 0).power_off) = true :=
      hcond 0 (Nat.succ_pos n)
    have h0 : (pressed e || !f.power_off) = true := by simpa using hstep
    have hunfold : resetPollLoop cfg pressed (n + 1 + fuel) e f
        = resetPollLoop cfg pressed (n + fuel) (e + 1) (resetPollBody cfg e f) := by
      have : n + 1 + fuel = (n + fuel) + 1 := by omega
      rw [this]
      show (if pressed e || !f.power_off then
              resetPollLoop cfg pressed (n + fuel) (e + 1) (resetPollBody cfg e f)
            else some f)
          = resetPollLoop cfg pressed (n + fuel) (e + 1) (resetPollBody cfg e f)
      rw [h0]
      rfl
    rw [hunfold]
    rw [ih fuel (e + 1) (resetPollBody cfg e f) ?later]
    · rw [resetFlagsIter_shift]
      have : e + 1 + n = e + (n + 1) := by omega
      rw [this]
    case later =>
      intro j hj
      rw [resetFlagsIter_shift]
      have : e + 1 + j = e + (j + 1) := by omega
      rw [this]
      exact hcond (j + 1) (by omega)

/-- With the `3, 8, 15` thresholds, `power_off` is still false at the
top of every iteration up to the 16th. -/
theorem resetFlagsIter_power_off_false :
    ∀ n, n ≤ 16 →
      (resetFlagsIter cmeThresholds 0
        { recovery_mode := false, factory_reset := false, power_off := false } n).power_off
        = false := by
  decide

/-- With the `3, 8, 15` thresholds, from the 17th iteration on the flags
are exactly `power_off = true`, `recovery_mode = false`,
`factory_reset = false`: the body at any elapsed time above 15 rewrites
all three flags (lines 99-101), whatever they were before. -/
theorem resetFlagsIter_poweroff (f0 : ResetFlags) :
    ∀ n, 17 ≤ n →
      resetFlagsIter cmeThresholds 0 f0 n
        = { recovery_mode := false, factory_reset := false, power_off := true } := by
  intro n hn
  match n, hn with
  | m + 1, hn =>
    show resetPollBody cmeThresholds (0 + m) (resetFlagsIter cmeThresholds 0 f0 m) = _
    have hm : 15 < 0 + m := by omega
    unfold resetPollBody
    simp only [cmeThresholds]
    rw [if_pos hm]

/-- C8 core: for any release time strictly after the 16th poll tick (the
hold outlived `RESET_FACTORY_SECONDS = 15`), the loop of line 79 exits
with `power_off = true` and both `recovery_mode` and `factory_reset`
cleared, so `restart` receives the pure power-off intent. -/
theorem reset_poweroff_clears_mode_flags (tRel : Nat) (h : 16 < tRel) :
    resetIntent cmeThresholds (heldUntil tRel) (tRel + 1)
      = some { recovery_mode := false, factory_reset := false, power_off := true } := by
  unfold resetIntent
  rw [resetPollLoop_advance cmeThresholds (heldUntil tRel) tRel 1 0 _ ?cond]
  · rw [resetFlagsIter_poweroff _ tRel (by omega)]
    show (if heldUntil tRel (0 + tRel) || !true then _ else _) = _
    have : heldUntil tRel (0 + tRel) = false := by
      unfold heldUntil
      simp
    rw [this]
    rfl
  case cond =>
    intro j hj
    have : heldUntil tRel (0 + j) = true := by
      unfold heldUntil
      simp
      omega
    rw [this]
    rfl

/-- C1: the claim states that the poll loop ends the first time the
input returns to the released level, and that releasing at `t = 1`
yields the plain-reboot intent (all flags false), at `t = 5` yields
`recovery_mode = true`, and at `t = 12` yields `factory_reset = true`.
The code does none of this: the loop condition of line 79 joins its two
tests with `or` (`while GPIO.input(GPIO_N_RESET) == GPIO.LOW or not
power_off`), so after the button is released the loop keeps polling -
contradicting the comment on lines 76-78, which says the loop stops on
release - until the still-growing elapsed time passes
`RESET_FACTORY_SECONDS`, at which point `power_off` is set and the loop
finally exits.  Evaluating the loop as written: all three release times
produce the power-off intent instead of the claimed ones. -/
theorem reset_release_ignored_spins_to_poweroff :
    resetIntent cmeThresholds (heldUntil 1) 18
        = some { recovery_mode := false, factory_reset := false, power_off := true } ∧
    resetIntent cmeThresholds (heldUntil 5) 18
        = some { recovery_mode := false, factory_reset := false, power_off := true } ∧
    resetIntent cmeThresholds (heldUntil 12) 18
        = some { recovery_mode := false, factory_reset := false, power_off := true } := by
  decide

/-- C8: whenever the hold outlives `RESET_FACTORY_SECONDS` before the
release (e.g. released at `t = 20` with thresholds `3, 8, 15`), the
intent handed to `restart` is `power_off = true` with `recovery_mode`
and `factory_reset` both false: reaching power-off clears the
recovery/factory flags that were set on the way (lines 99-101). -/
theorem reset_poweroff_overrides (tRel : Nat) (h : 16 < tRel) :
    resetIntent cmeThresholds (heldUntil tRel) (tRel + 1)
      = some { recovery_mode := false, factory_reset := false, power_off := true } :=
  reset_poweroff_clears_mode_flags tRel h

theorem reset_poweroff_overrides_witness :
    16 < 20 ∧
    resetIntent cmeThresholds (heldUntil 20) 21
      = some { recovery_mode := false, factory_reset := false, power_off := true } :=
  ⟨by decide, reset_poweroff_overrides 20 (by decide)⟩

/-! ## Shutdown coordinator (`cleanup`, lines 121-139 and 349-362)

`cleanup` is straight-line code over the GPIO outputs, the
`Config.PATHS.POWEROFF_FILE` marker and the process itself.  The state
it touches is modelled as a record, and every externally visible step is
also recorded in an event trace, in program order. -/

/-- One observable step of `cleanup`, in source order: the two status
GPIO writes (lines 123-124), the marker deletion (line 127), the standby
assertion (line 128), the 100 ms sleep (line 129), `GPIO.cleanup()`
(line 131) and `sys.exit(0)` (line 134). -/
inductive CleanupEvent
  | outGreen (b : Bool)
  | outSolid (b : Bool)
  | removePoweroffFile
  | outStandby (b : Bool)
  | sleepMs (n : Nat)
  | gpioCleanup
  | exitZero
deriving DecidableEq

/-- The machine state `cleanup` reads and writes: the two status lines,
the standby line, presence of the power-off marker file, whether the
GPIO claims are still held, and whether the process has exited. -/
structure SysState where
  statusGreen : Bool
  statusSolid : Bool
  standby : Bool
  poweroffFile : Bool
  gpioOwned : Bool
  exited : Bool
deriving DecidableEq

/-- The state at the moment the script is running normally: GPIO set up
as on lines 24-27 (status green, blinking, power on), GPIO claims held,
process alive; `m` says whether `Config.PATHS.POWEROFF_FILE` exists. -/
def runningState (m : Bool) : SysState :=
  { statusGreen := true, statusSolid := false, standby := false,
    poweroffFile := m, gpioOwned := true, exited := false }

/-- The body of `cleanup()` (lines 121-134), translated line by line:
set status red (`GPIO.output(GPIO_STATUS_GREEN, False)`) and blinking
(`GPIO.output(GPIO_STATUS_SOLID, False)`); if the power-off marker file
exists, delete it, assert `GPIO_STANDBY` and hold it for 100 ms
(`time.sleep(0.1)`); then `GPIO.cleanup()` releases the GPIO claims and
`sys.exit(0)` terminates the process.  Returns the final state and the
trace of steps in execution order. -/
def cleanupBody (s : SysState) : SysState × List CleanupEvent :=
  let s1 := { s with statusGreen := false, statusSolid := false }
  let ev1 := [CleanupEvent.outGreen false, CleanupEvent.outSolid false]
  let step2 : SysState × List CleanupEvent :=
    if s1.poweroffFile then
      ({ s1 with poweroffFile := false, standby := true },
       [CleanupEvent.removePoweroffFile, CleanupEvent.outStandby true, CleanupEvent.sleepMs 100])
    else (s1, [])
  let s3 := { step2.1 with gpioOwned := false, exited := true }
  (s3, ev1 ++ step2.2 ++ [CleanupEvent.gpioCleanup, CleanupEvent.exitZero])

/-- The trace of a `cleanup` run from the normal running state with the
power-off marker present (`m = true`) or absent (`m = false`). -/
def cleanupTrace (m : Bool) : List CleanupEvent :=
  (cleanupBody (runningState m)).2

/-- The number of parameters `cleanup` declares: `def cleanup():`
(line 121) takes none. -/
def cleanupParamCount : Nat := 0

/-- The number of arguments CPython passes when it invokes a registered
signal handler: two, the signal number and the current frame.
`signal.signal(signal.SIGTERM, cleanup)` (line 139) registers `cleanup`
itself as the handler. -/
def signalHandlerArgCount : Nat := 2

/-- The outcome of a run of the teardown body: either `sys.exit(0)` was
reached (the process terminates with the success code), or a `TypeError`
raised inside the body propagated out of it, killing the process with a
traceback and a non-zero status before `sys.exit(0)`. -/
inductive ShutdownOutcome
  | exitedZero
  | abortedTypeError
deriving DecidableEq

/-- A run of the teardown body during which a second shutdown trigger (a
repeated `SIGTERM`) is delivered after `k` of the body's steps have
executed.  CPython delivers a pending signal on the main thread between
two bytecodes, calling the registered handler with `signalHandlerArgCount`
arguments; `cleanup` accepts `cleanupParamCount`, so the call raises
`TypeError` at the delivery point.  The body is already running inside
the top-level `finally` (line 361), so the exception propagates, the
remaining steps of the body are skipped, and the process dies without
reaching `sys.exit(0)`.  A `k` at or beyond the body's length means the
second trigger arrives only after `sys.exit(0)` has terminated the
process, where it finds nothing left to interrupt and the completed
trace stands. -/
def cleanupWithSecondTriggerAt (m : Bool) (k : Nat) : List CleanupEvent × ShutdownOutcome :=
  if k < (cleanupTrace m).length ∧ signalHandlerArgCount ≠ cleanupParamCount then
    ((cleanupTrace m).take k, ShutdownOutcome.abortedTypeError)
  else
    (cleanupTrace m, ShutdownOutcome.exitedZero)

/-- C7 counterexample: the claim states that a second shutdown trigger
is a no-op or blocks until the first completes, with the teardown body
executing exactly once and the power-off marker deleted exactly once.
`cleanup` has no already-terminating guard at all, and the handler
registered on line 139 has the wrong arity, so a repeated `SIGTERM`
delivered while the first teardown is in progress - here after the two
indicator writes, before the marker test of line 126 - raises
`TypeError` inside the running body: with the marker present, the
teardown stops after two steps, the marker is deleted zero times (not
exactly once), and the process never reaches `sys.exit(0)`. -/
theorem second_trigger_mid_teardown_aborts_body :
    cleanupWithSecondTriggerAt true 2
        = ([CleanupEvent.outGreen false, CleanupEvent.outSolid false],
           ShutdownOutcome.abortedTypeError) ∧
    (cleanupWithSecondTriggerAt true 2).1.count CleanupEvent.removePoweroffFile = 0 ∧
    CleanupEvent.exitZero ∉ (cleanupWithSecondTriggerAt true 2).1 ∧
    signalHandlerArgCount ≠ cleanupParamCount := by
  decide

/-- C7 amended: a second trigger delivered after the first teardown has
completed is absorbed - `sys.exit(0)` has already terminated the
process, so the completed trace stands and the success exit is unique.
A second trigger delivered while the first teardown is in progress
neither blocks nor no-ops: the wrong-arity handler raises `TypeError` at
the delivery point, the remaining teardown steps are skipped, and the
process dies without the success exit.  In every case the teardown body
starts at most once and each of its effects happens at most once - the
exactly-once the claim asserts holds only when no trigger lands
mid-body. -/
theorem shutdown_second_trigger_at_most_once (m : Bool) (k : Nat) :
    ((cleanupTrace m).length ≤ k →
        cleanupWithSecondTriggerAt m k = (cleanupTrace m, ShutdownOutcome.exitedZero)) ∧
    (k < (cleanupTrace m).length →
        (cleanupWithSecondTriggerAt m k).2 = ShutdownOutcome.abortedTypeError ∧
        CleanupEvent.exitZero ∉ (cleanupWithSecondTriggerAt m k).1) ∧
    (cleanupWithSecondTriggerAt m k).1.count (CleanupEvent.outGreen false) ≤ 1 ∧
    (cleanupWithSecondTriggerAt m k).1.count CleanupEvent.removePoweroffFile ≤ 1 ∧
    (cleanupWithSecondTriggerAt m k).1.count CleanupEvent.exitZero ≤ 1 := by
  cases m with
  | false =>
    by_cases hk : k < (cleanupTrace false).length
    · have h4 : (cleanupTrace false).length = 4 := rfl
      rw [h4] at hk
      interval_cases k <;> decide
    · have hres : cleanupWithSecondTriggerAt false k
          = (cleanupTrace false, ShutdownOutcome.exitedZero) := by
        unfold cleanupWithSecondTriggerAt
        rw [if_neg]
        intro hcon
        exact hk hcon.1
      refine ⟨fun _ => hres, fun hlt => absurd hlt hk, ?_, ?_, ?_⟩
      · rw [hres]; decide
      · rw [hres]; decide
      · rw [hres]; decide
  | true =>
    by_cases hk : k < (cleanupTrace true).length
    · have h7 : (cleanupTrace true).length = 7 := rfl
      rw [h7] at hk
      interval_cases k <;> decide
    · have hres : cleanupWithSecondTriggerAt true k
          = (cleanupTrace true, ShutdownOutcome.exitedZero) := by
        unfold cleanupWithSecondTriggerAt
        rw [if_neg]
        intro hcon
        exact hk hcon.1
      refine ⟨fun _ => hres, fun hlt => absurd hlt hk, ?_, ?_, ?_⟩
      · rw [hres]; decide
      · rw [hres]; decide
      · rw [hres]; decide

theorem shutdown_second_trigger_at_most_once_witness :
    (((cleanupTrace true).length ≤ 2 →
        cleanupWithSecondTriggerAt true 2 = (cleanupTrace true, ShutdownOutcome.exitedZero)) ∧
     (2 < (cleanupTrace true).length →
        (cleanupWithSecondTriggerAt true 2).2 = ShutdownOutcome.abortedTypeError ∧
        CleanupEvent.exitZero ∉ (cleanupWithSecondTriggerAt true 2).1) ∧
     (cleanupWithSecondTriggerAt true 2).1.count (CleanupEvent.outGreen false) ≤ 1 ∧
     (cleanupWithSecondTriggerAt true 2).1.count CleanupEvent.removePoweroffFile ≤ 1 ∧
     (cleanupWithSecondTriggerAt true 2).1.count CleanupEvent.exitZero ≤ 1) :=
  shutdown_second_trigger_at_most_once true 2

/-- C9: the teardown steps happen in exactly the order of lines 123-134:
indicators to red and blinking first; then, only when the power-off
marker exists, its deletion followed by asserting the standby line for
100 ms; then the release of the GPIO claims; then `sys.exit(0)`.  In
particular the marker deletion (when it happens) strictly precedes
`GPIO.cleanup()`, and the standby line is held for the 100 ms sleep
before the release. -/
theorem cleanup_step_order (m : Bool) :
    cleanupTrace m
      = [CleanupEvent.outGreen false, CleanupEvent.outSolid false] ++
        (if m then
          [CleanupEvent.removePoweroffFile, CleanupEvent.outStandby true, CleanupEvent.sleepMs 100]
         else []) ++
        [CleanupEvent.gpioCleanup, CleanupEvent.exitZero] ∧
    ((cleanupTrace true).indexOf CleanupEvent.removePoweroffFile
        < (cleanupTrace true).indexOf CleanupEvent.gpioCleanup) ∧
    ((cleanupTrace true).indexOf (CleanupEvent.outStandby true)
        < (cleanupTrace true).indexOf (CleanupEvent.sleepMs 100)) ∧
    ((cleanupTrace true).indexOf (CleanupEvent.sleepMs 100)
        < (cleanupTrace true).indexOf CleanupEvent.gpioCleanup) ∧
    ((cleanupTrace m).getLast? = some CleanupEvent.exitZero) := by
  cases m <;> decide

/-- C10: during teardown the standby (power-control) line is asserted if
and only if the power-off marker file existed when `cleanup` ran, and
the marker deletion is attempted if and only if it existed. -/
theorem cleanup_standby_iff_marker (m : Bool) :
    (CleanupEvent.outStandby true ∈ cleanupTrace m ↔ m = true) ∧
    (CleanupEvent.removePoweroffFile ∈ cleanupTrace m ↔ m = true) ∧
    ((cleanupBody (runningState m)).1.standby = m) := by
  cases m <;> decide

/-! ## Boot stage pipeline (`main`, lines 143-264)

`main` runs four stages in order: the recovery gate (lines 153-162), the
update check (lines 171-193), the module launch (lines 200-251) and the
recovery launch (lines 259-264).  Python resolves the bare name `glob`
on line 178 against the module's imports; any uncaught exception in
`main` is caught by the top-level handler (lines 357-358) and ends the
run in `cleanup` (line 361). -/

/-- The four stages of the pipeline, in traversal order. -/
inductive BootStage
  | recoveryGate
  | updateCheck
  | moduleSupervision
  | recoveryFallback
deriving DecidableEq

/-- A Python exception escaping a stage.  `nameErrorGlob` is
`NameError: name 'glob' is not defined`. -/
inductive PyError
  | nameErrorGlob
deriving DecidableEq

/-- The names bound at module level of `src/cmeinit/__main__.py` by the
imports on lines 5-12.  `glob` is not among them: line 5 imports
`logging, logging.handlers, signal, os, sys, time, subprocess,
threading` and the remaining imports bind `datetime`, `GPIO`, `semver`,
`Config` and `restart`. -/
def importedNames : List String :=
  ["logging", "logging.handlers", "signal", "os", "sys", "time", "subprocess", "threading",
   "datetime", "GPIO", "semver", "Config", "restart"]

/-- The update-check stage (lines 171-193) on a normal boot: its first
real step, `packages = glob.glob(os.path.join(update_dir, update_glob))`
(line 178), resolves the bare name `glob`, which raises `NameError`
when the name is not bound by the module's imports; otherwise the stage
runs through (finding packages or logging `No updates found`) and
completes. -/
def updateCheckStage : Except PyError Unit :=
  if importedNames.contains "glob" then Except.ok () else Except.error PyError.nameErrorGlob

/-- The stages `main` enters, in order, and the exception (if any) that
aborted the run to the top-level handler.  Stage 1 consumes the recovery
marker and sets `recovery_mode` (lines 153-162); when it is set, stages
2 and 3 are bypassed and the run goes directly to the recovery launch
(lines 191-192, 250-251, 259-264); otherwise stage 2 runs, and only if
it completes do stages 3 and 4 follow. -/
def mainBootStages (recoveryMarkerPresent : Bool) : List BootStage × Option PyError :=
  let recovery_mode := recoveryMarkerPresent
  if recovery_mode then
    ([BootStage.recoveryGate, BootStage.recoveryFallback], none)
  else
    match updateCheckStage with
    | Except.error e => ([BootStage.recoveryGate, BootStage.updateCheck], some e)
    | Except.ok _ =>
      ([BootStage.recoveryGate, BootStage.updateCheck, BootStage.moduleSupervision,
        BootStage.recoveryFallback], none)

/-- C3: the claim states that on a normal boot (recovery marker absent)
the update-check stage always completes and proceeds to module
supervision.  It does not: `glob` is never imported (line 5), so
`glob.glob(...)` on line 178 raises `NameError` on every normal boot,
the run aborts to the top-level handler, and the module-supervision
stage is never entered. -/
theorem normal_boot_update_check_crashes :
    mainBootStages false = ([BootStage.recoveryGate, BootStage.updateCheck],
                            some PyError.nameErrorGlob) ∧
    BootStage.moduleSupervision ∉ (mainBootStages false).1 ∧
    importedNames.contains "glob" = false := by
  decide

/-! ## Module launch stage (`main` stage 3 + 4, lines 200-264)

On a non-recovery path, stage 3 first clears leftover containers
(line 204), resolves the three docker images (lines 207-211), and only
when all three resolved (`if cmeapi and cmehw and cmeweb:`, line 214)
launches the fifo helper and the three module containers; otherwise it
only logs `Application modules not found` (line 247).  Stage 4 then
launches the recovery module unconditionally (lines 259-264). -/

/-- A resolved docker image, as `_parse_image` returns it:
`[ name, tag ]`. -/
abbrev CatalogEntry := String × String

/-- The externally visible actions of stages 3 and 4, in order. -/
inductive LaunchEvent
  | stopRemoveSweep
  | fifoLaunch
  | dockerRun (name : String)
  | statusGreenSolid
  | modulesNotFound
  | recoveryLaunch
deriving DecidableEq

/-- Stages 3 and 4 of `main` (lines 200-264) as an event trace, given
`recovery_mode` and the three resolved images.  In Python, `cmeapi and
cmehw and cmeweb` is truthy exactly when none of the three is `None`. -/
def moduleStageEvents (recovery_mode : Bool)
    (cmeapi cmehw cmeweb : Option CatalogEntry) : List LaunchEvent :=
  (if recovery_mode then []
   else
    [LaunchEvent.stopRemoveSweep] ++
    (match cmeapi, cmehw, cmeweb with
     | some a, some h, some w =>
       [LaunchEvent.fifoLaunch, LaunchEvent.dockerRun a.1, LaunchEvent.dockerRun h.1,
        LaunchEvent.dockerRun w.1, LaunchEvent.statusGreenSolid]
     | _, _, _ => [LaunchEvent.modulesNotFound])) ++
  [LaunchEvent.recoveryLaunch]

/-- C6: the supervisor group is all-launched-or-none.  Whenever at least
one of the three required images is unresolved, stage 3 launches nothing
at all - no module container and not even the fifo helper - reports the
group as incomplete (`Application modules not found`), and the run falls
through to the recovery launch of stage 4. -/
theorem launch_all_or_none (cmeapi cmehw cmeweb : Option CatalogEntry)
    (h : cmeapi = none ∨ cmehw = none ∨ cmeweb = none) :
    moduleStageEvents false cmeapi cmehw cmeweb
        = [LaunchEvent.stopRemoveSweep, LaunchEvent.modulesNotFound,
           LaunchEvent.recoveryLaunch] ∧
    (∀ s, LaunchEvent.dockerRun s ∉ moduleStageEvents false cmeapi cmehw cmeweb) ∧
    LaunchEvent.fifoLaunch ∉ moduleStageEvents false cmeapi cmehw cmeweb := by
  have htrace : moduleStageEvents false cmeapi cmehw cmeweb
      = [LaunchEvent.stopRemoveSweep, LaunchEvent.modulesNotFound,
         LaunchEvent.recoveryLaunch] := by
    cases cmeapi <;> cases cmehw <;> cases cmeweb <;>
      first
        | rfl
        | (exfalso; simp at h)
  refine ⟨htrace, ?runs, ?fifo⟩
  case runs =>
    intro s
    rw [htrace]
    simp
  case fifo =>
    rw [htrace]
    simp

theorem launch_all_or_none_witness :
    ((none : Option CatalogEntry) = none ∨
       (some (("cmehw", "1.0.0") : CatalogEntry)) = none ∨
       (some (("cmeweb", "1.0.0") : CatalogEntry)) = none) ∧
    (moduleStageEvents false none (some ("cmehw", "1.0.0")) (some ("cmeweb", "1.0.0"))
        = [LaunchEvent.stopRemoveSweep, LaunchEvent.modulesNotFound,
           LaunchEvent.recoveryLaunch] ∧
     (∀ s, LaunchEvent.dockerRun s
        ∉ moduleStageEvents false none (some ("cmehw", "1.0.0")) (some ("cmeweb", "1.0.0"))) ∧
     LaunchEvent.fifoLaunch
        ∉ moduleStageEvents false none (some ("cmehw", "1.0.0")) (some ("cmeweb", "1.0.0"))) :=
  ⟨Or.inl rfl,
   launch_all_or_none none (some ("cmehw", "1.0.0")) (some ("cmeweb", "1.0.0")) (Or.inl rfl)⟩

/-! ## Service group supervisor (`_launch_docker` / `_stop_remove_containers`,
lines 222-238, 270-310, 328-335)

`main` starts one thread per service; each thread's `_launch_docker`
blocks in `docker wait ID` (line 305) and, when its own container stops,
calls `_stop_remove_containers()` (line 310), which lists *all* current
containers (`docker ps -aq`, line 330) and issues `docker stop` and
`docker rm` for each (lines 334-335).  `main` then joins all three
threads (lines 236-238).

The three containers are indexed by `Fin 3`.  The shared docker state
and the three waiter threads are modelled explicitly, and a schedule -
an arbitrary interleaving of atomic thread steps - drives a small-step
execution.  The atomic steps are: a container exiting on its own
(`crash`), a thread's `docker wait` returning and the thread taking its
`docker ps -aq` snapshot (`observe`), and a thread processing the next
container of its snapshot with a `docker stop` + `docker rm` pair
(`sweep`).  A step whose thread is not in the matching phase changes
nothing. -/

/-- What a waiter thread is doing: still blocked in `docker wait`;
working through the container list its `docker ps -aq` returned; or
finished (`_launch_docker` returned, so `join` succeeds). -/
inductive SvcPhase
  | waiting
  | tearing (pending : List (Fin 3))
  | done
deriving DecidableEq

/-- The shared state: which containers' processes still run, which
containers the docker registry still lists, each thread's phase, and how
many `docker stop` / `docker rm` commands each container has received. -/
structure SvcState where
  running : Fin 3 → Bool
  present : Fin 3 → Bool
  phase : Fin 3 → SvcPhase
  stops : Fin 3 → Nat
  removes : Fin 3 → Nat

/-- The result of running docker ps -aq: the containers the registry currently lists. -/
def dockerPs (s : SvcState) : List (Fin 3) :=
  (List.finRange 3).filter (fun c => s.present c)

/-- One atomic step of one thread (or of a container's own process). -/
inductive SvcAct
  | crash (i : Fin 3)
  | observe (i : Fin 3)
  | sweep (i : Fin 3)

/-- The small-step transition.  `crash i`: container `i`'s process exits
on its own.  `observe i`: thread `i`'s `docker wait` returns - possible
only once its container is no longer running - and the thread snapshots
`docker ps -aq` (line 330).  `sweep i`: thread `i` issues the
`docker stop c` / `docker rm c` pair for the next container `c` of its
snapshot (lines 332-335): the stop terminates `c`'s process, the rm
drops `c` from the registry, and both commands are counted against `c`;
with an exhausted snapshot the thread's `_stop_remove_containers` and
hence `_launch_docker` returns. -/
def svcStep (s : SvcState) : SvcAct → SvcState
  | SvcAct.crash i => { s with running := fun j => if j = i then false else s.running j }
  | SvcAct.observe i =>
    match s.phase i with
    | SvcPhase.waiting =>
      if s.running i then s
      else { s with phase := fun j => if j = i then SvcPhase.tearing (dockerPs s) else s.phase j }
    | _ => s
  | SvcAct.sweep i =>
    match s.phase i with
    | SvcPhase.tearing [] =>
      { s with phase := fun j => if j = i then SvcPhase.done else s.phase j }
    | SvcPhase.tearing (c :: rest) =>
      { s with
        running := fun j => if j = c then false else s.running j,
        present := fun j => if j = c then false else s.present j,
        stops := fun j => if j = c then s.stops j + 1 else s.stops j,
        removes := fun j => if j = c then s.removes j + 1 else s.removes j,
        phase := fun j => if j = i then SvcPhase.tearing rest else s.phase j }
    | _ => s

/-- All three containers launched and registered, all threads blocked in
`docker wait`, no stop/rm issued yet (the state after lines 222-233). -/
def svcInit : SvcState :=
  { running := fun _ => true, present := fun _ => true,
    phase := fun _ => SvcPhase.waiting, stops := fun _ => 0, removes := fun _ => 0 }

/-- Run a schedule from the launched state. -/
def svcRun (acts : List SvcAct) : SvcState := acts.foldl svcStep svcInit

/-- A schedule in which thread 0's teardown sweep overlaps thread 1's:
container 0 crashes; thread 0 snapshots `[0, 1, 2]` and stops/removes
containers 0 and 1; thread 1 (its container now stopped) wakes and
snapshots `[2]`; thread 1 stops/removes container 2, after which thread
0, still holding container 2 in its own snapshot, stops/removes it a
second time; all three threads then finish. -/
def overlapSchedule : List SvcAct :=
  [SvcAct.crash 0, SvcAct.observe 0, SvcAct.sweep 0, SvcAct.sweep 0,
   SvcAct.observe 1, SvcAct.sweep 1, SvcAct.sweep 0, SvcAct.sweep 0,
   SvcAct.observe 2, SvcAct.sweep 1, SvcAct.sweep 2]

/-- C2 counterexample: the claim states that every handle receives stop
and remove exactly once, with a single designated owner doing the
teardown and the other waiters reduced to no-ops.  The code has no such
owner: *every* thread whose `docker wait` returns runs its own
`_stop_remove_containers()` sweep over its own `docker ps -aq` snapshot
(line 310), and when two sweeps interleave the same container receives
the stop/rm pair from both.  In the schedule above - a complete
execution in which all three waits resolve and all three threads finish
- container 2 receives `docker stop` and `docker rm` twice. -/
theorem sweeps_interleave_stop_twice :
    (svcRun overlapSchedule).stops 2 = 2 ∧
    (svcRun overlapSchedule).removes 2 = 2 ∧
    (∀ i : Fin 3, (svcRun overlapSchedule).phase i = SvcPhase.done) := by
  decide

/-- The serialized schedule: the first-exiting container `i` crashes,
thread `i` wakes and runs its whole sweep to completion, and only then
do the other two threads (in order `j`, `k`) wake and run theirs. -/
def serializedSchedule (i j k : Fin 3) : List SvcAct :=
  [SvcAct.crash i, SvcAct.observe i, SvcAct.sweep i, SvcAct.sweep i, SvcAct.sweep i,
   SvcAct.sweep i, SvcAct.observe j, SvcAct.sweep j, SvcAct.observe k, SvcAct.sweep k]

/-- C2 amended: when the teardown sweeps do not interleave, the first
waiter to observe an exit tears down the whole group - every container
receives `docker stop` and `docker rm` exactly once, from that one
sweep - and the other two waiters, woken by that very teardown, find
`docker ps -aq` empty, so their sweeps are no-ops; the launch stage
returns only after all three waits have completed (all three threads
reach `done`, so the three `join`s of lines 236-238 return).  This holds
for any first-exited service `i` and any wake order `j`, `k` of the
other two. -/
theorem serialized_teardown_exactly_once :
    ∀ i j k : Fin 3, i ≠ j → i ≠ k → j ≠ k →
      (∀ c : Fin 3, (svcRun (serializedSchedule i j k)).stops c = 1 ∧
                    (svcRun (serializedSchedule i j k)).removes c = 1) ∧
      (∀ c : Fin 3, (svcRun (serializedSchedule i j k)).phase c = SvcPhase.done) := by
  decide

theorem serialized_teardown_exactly_once_witness :
    ((0 : Fin 3) ≠ 1 ∧ (0 : Fin 3) ≠ 2 ∧ (1 : Fin 3) ≠ 2) ∧
    ((∀ c : Fin 3, (svcRun (serializedSchedule 0 1 2)).stops c = 1 ∧
                   (svcRun (serializedSchedule 0 1 2)).removes c = 1) ∧
     (∀ c : Fin 3, (svcRun (serializedSchedule 0 1 2)).phase c = SvcPhase.done)) :=
  ⟨by decide, serialized_teardown_exactly_once 0 1 2 (by decide) (by decide) (by decide)⟩

/-! ## Semantic versions (the `semver` collaborator of `_parse_image`)

`_parse_image` (lines 338-345) delegates version comparison to the
external `semver` library: `semver.match(new_image[1], '>=' +
current_image[1])` parses both version strings - raising `ValueError`
when either is not a valid semantic version - and compares them by
standard semantic-version precedence (§3 of the spec: "Ordering follows
standard semantic-version precedence").  The library is modelled here:
the SemVer 2.0 grammar `major.minor.patch[-prerelease][+build]` with
numeric identifiers free of leading zeros, and precedence that orders by
the numeric triple, ranks a release above any of its pre-releases,
compares pre-release identifier lists lexicographically with numeric
identifiers below alphanumeric ones, and ignores build metadata. -/

/-- Split a character list at every occurrence of `sep` (the pieces do
not contain `sep`; `n` separators yield `n + 1` pieces). -/
def splitOnChar (sep : Char) : List Char → List (List Char)
  | [] => [[]]
  | x :: xs =>
    let r := splitOnChar sep xs
    if x = sep then [] :: r
    else
      match r with
      | [] => [[x]]
      | y :: ys => (x :: y) :: ys

/-- Rejoin pieces with the separator `sep` between them. -/
def joinChar (sep : Char) : List (List Char) → List Char
  | [] => []
  | [x] => x
  | x :: xs => x ++ sep :: joinChar sep xs

/-- A character allowed in a pre-release or build identifier:
ASCII alphanumeric or hyphen. -/
def semverIdentChar (c : Char) : Bool := c.isDigit || c.isAlpha || c = '-'

/-- A numeric identifier: nonempty, digits only, no leading zero.
Returns its value. -/
def parseNumIdent (cs : List Char) : Option Nat :=
  if cs ≠ [] ∧ cs.all Char.isDigit ∧ (cs = ['0'] ∨ cs.head? ≠ some '0') then
    some (cs.foldl (fun n c => n * 10 + (c.toNat - 48)) 0)
  else none

/-- A pre-release identifier: numeric identifiers (digits only, no
leading zero) carry their value on the left, alphanumeric identifiers
stay as text on the right. -/
def parsePreId (cs : List Char) : Option (Nat ⊕ String) :=
  if cs = [] then none
  else if cs.all Char.isDigit then (parseNumIdent cs).map Sum.inl
  else if cs.all semverIdentChar then some (Sum.inr (String.mk cs))
  else none

/-- A build identifier: nonempty, alphanumeric or hyphen (leading zeros
allowed). -/
def parseBuildId (cs : List Char) : Option String :=
  if cs ≠ [] ∧ cs.all semverIdentChar then some (String.mk cs) else none

/-- A parsed semantic version. -/
structure SemVer where
  major : Nat
  minor : Nat
  patch : Nat
  prerelease : List (Nat ⊕ String)
  build : List String
deriving DecidableEq

/-- The `major.minor.patch` core: exactly three dot-separated numeric
identifiers. -/
def parseMMP (cs : List Char) : Option (Nat × Nat × Nat) :=
  match splitOnChar '.' cs with
  | [a, b, c] => do
    let ma ← parseNumIdent a
    let mi ← parseNumIdent b
    let pa ← parseNumIdent c
    some (ma, mi, pa)
  | _ => none

/-- The part before `+`: the numeric core, optionally followed by a
hyphen and the dot-separated pre-release identifiers (which may
themselves contain hyphens, hence the rejoin). -/
def parseVerPre (cs : List Char) (build : List String) : Option SemVer :=
  match splitOnChar '-' cs with
  | [] => none
  | core :: rest => do
    let (ma, mi, pa) ← parseMMP core
    let pre ← if rest.isEmpty then some [] else (splitOnChar '.' (joinChar '-' rest)).mapM parsePreId
    some ⟨ma, mi, pa, pre, build⟩

/-- Parse a semantic version string; `none` when the string is not a
valid SemVer 2.0 version (the model of the library's `ValueError`).
At most one `+` may occur, and everything after it is dot-separated
build identifiers. -/
def parseSemVer (s : String) : Option SemVer :=
  match splitOnChar '+' s.toList with
  | [vp] => parseVerPre vp []
  | [vp, b] => do
    let bs ← (splitOnChar '.' b).mapM parseBuildId
    parseVerPre vp bs
  | _ => none

/-- The precedence key of a version.  Keys are compared
lexicographically: major, then minor, then patch, then the pre-release
field, where a release (`⊤`) outranks every pre-release and pre-release
identifier lists are compared lexicographically (a strict prefix being
smaller), each identifier ordering numeric (`Sum.inl`) below
alphanumeric (`Sum.inr`), numerics by value and alphanumerics by ASCII.
Build metadata is ignored, as SemVer precedence demands. -/
def SemVer.key (v : SemVer) :
    Lex (Nat × Lex (Nat × Lex (Nat × WithTop (List (Nat ⊕ₗ String))))) :=
  toLex (v.major, toLex (v.minor, toLex (v.patch,
    if v.prerelease = [] then (⊤ : WithTop (List (Nat ⊕ₗ String)))
    else ((v.prerelease.map toLex : List (Nat ⊕ₗ String)) : WithTop (List (Nat ⊕ₗ String))))))

/-! ## Version selection (`_parse_image` / `_list_docker_images`,
lines 313-325 and 338-345) -/

/-- The exception `semver.match` raises on an unparseable version. -/
inductive SemverError
  | valueError
deriving DecidableEq

deriving instance DecidableEq for Except

/-- The call semver.match(newV, ">=" + curV) of line 342: parse both versions - raising
`ValueError` if either fails to parse - and test whether `newV`'s
precedence is at least `curV`'s. -/
def semverMatchGe (newV curV : String) : Except SemverError Bool :=
  match parseSemVer newV, parseSemVer curV with
  | some a, some b => Except.ok (decide (SemVer.key b ≤ SemVer.key a))
  | _, _ => Except.error SemverError.valueError

/-- The accumulator step of the selection, a translation of the
function on lines 338-345 (one call of it per catalog entry): an
entry of a different name leaves the accumulator unchanged (line 340);
`if not current_image or semver.match(new_image[1], '>=' +
current_image[1])` takes the new entry when no entry is held yet -
without parsing anything, by short-circuit - or when its version
compares `>=` the held one (line 343); otherwise the held entry stays
(line 345).  Exceptions from `semver.match` propagate. -/
def parseImage (name : String) (current : Option CatalogEntry) (img : CatalogEntry) :
    Except SemverError (Option CatalogEntry) :=
  if img.1 = name then
    match current with
    | none => Except.ok (some img)
    | some cur =>
      match semverMatchGe img.2 cur.2 with
      | Except.ok true => Except.ok (some img)
      | Except.ok false => Except.ok (some cur)
      | Except.error e => Except.error e
  else Except.ok current

/-- The selection `_list_docker_images` (lines 313-325) performs for one
required name: the catalog entries are fed through `_parse_image` in
list order, starting from `None`; the first exception aborts the whole
loop. -/
def selectImage (name : String) (catalog : List CatalogEntry) :
    Except SemverError (Option CatalogEntry) :=
  catalog.foldlM (parseImage name) none

/-- The whole of lines 313-325: one pass over the catalog updating
the three accumulators, `cmeapi` first (lines 318-325). -/
def listDockerImages (catalog : List CatalogEntry) :
    Except SemverError (Option CatalogEntry × Option CatalogEntry × Option CatalogEntry) :=
  catalog.foldlM
    (fun acc img => do
      let a ← parseImage "cmeapi" acc.1 img
      let h ← parseImage "cmehw" acc.2.1 img
      let w ← parseImage "cmeweb" acc.2.2 img
      Except.ok (a, h, w))
    (none, none, none)

/-- C5 counterexample: the claim states that a catalog containing an
entry whose version string fails to parse never makes the selection
raise - the malformed entry is excluded and selection still produces a
result.  In fact, with `("cmeapi", "1.0.0")` already selected, the
malformed entry `("cmeapi", "not-a-version")` reaches
`semver.match("not-a-version", ">=1.0.0")`, which raises `ValueError`
and aborts the whole selection. -/
theorem malformed_version_aborts_selection :
    parseSemVer "not-a-version" = none ∧
    selectImage "cmeapi" [("cmeapi", "1.0.0"), ("cmeapi", "not-a-version")]
        = Except.error SemverError.valueError := by
  constructor
  · decide
  · decide

/-- C5 amended: a malformed version entry is not excluded from
consideration.  If it is the first entry of its name, the short-circuit
`not current_image` accepts it without ever parsing it, and it becomes
the selection; if an entry of its name is already held, the comparison
parses it, raises `ValueError`, and the selection as a whole aborts with
that error. -/
theorem malformed_version_not_excluded :
    (∀ (name bad : String), parseSemVer bad = none →
        selectImage name [(name, bad)] = Except.ok (some (name, bad))) ∧
    (∀ (name goodTag bad : String), parseSemVer bad = none →
        selectImage name [(name, goodTag), (name, bad)]
          = Except.error SemverError.valueError) := by
  constructor
  · intro name bad _
    simp [selectImage, List.foldlM, parseImage]
  · intro name goodTag bad hbad
    simp [selectImage, List.foldlM, parseImage, semverMatchGe, hbad, Bind.bind, Except.bind]

theorem malformed_version_not_excluded_witness :
    (parseSemVer "beta" = none ∧
     selectImage "cmeapi" [("cmeapi", "beta")] = Except.ok (some ("cmeapi", "beta"))) ∧
    (parseSemVer "beta" = none ∧
     selectImage "cmeapi" [("cmeapi", "1.0.0"), ("cmeapi", "beta")]
         = Except.error SemverError.valueError) :=
  ⟨⟨by decide, malformed_version_not_excluded.1 "cmeapi" "beta" (by decide)⟩,
   ⟨by decide, malformed_version_not_excluded.2 "cmeapi" "1.0.0" "beta" (by decide)⟩⟩

/-- C4 counterexample: the claim states that when two entries of the
same name have equal versions, the first encountered in list order is
selected.  The comparison on line 342 is `semver.match(new_image[1],
'>=' + current_image[1])`, so an equal-precedence entry *replaces* the
held one: with the catalog `[("cmeapi", "1.0.0+b1"), ("cmeapi",
"1.0.0+b2")]` - two well-formed versions of equal precedence, build
metadata being ignored - the selection returns the second entry, not the
first. -/
theorem select_equal_precedence_takes_last :
    selectImage "cmeapi" [("cmeapi", "1.0.0+b1"), ("cmeapi", "1.0.0+b2")]
        = Except.ok (some ("cmeapi", "1.0.0+b2")) ∧
    (parseSemVer "1.0.0+b1").map SemVer.key = (parseSemVer "1.0.0+b2").map SemVer.key ∧
    (parseSemVer "1.0.0+b1").isSome = true ∧
    (("cmeapi", "1.0.0+b2") : CatalogEntry) ≠ ("cmeapi", "1.0.0+b1") := by
  refine ⟨by decide, by decide, by decide, by decide⟩

/-- Peeling the last catalog entry off the selection fold. -/
theorem selectImage_snoc_aux (name : String) (e : CatalogEntry) :
    ∀ (xs : List CatalogEntry) (acc : Option CatalogEntry),
      List.foldlM (parseImage name) acc (xs ++ [e])
        = Except.bind (List.foldlM (parseImage name) acc xs) (fun b => parseImage name b e) := by
  intro xs
  induction xs with
  | nil =>
    intro acc
    show Except.bind (parseImage name acc e) (fun s' => List.foldlM (parseImage name) s' [])
        = parseImage name acc e
    cases parseImage name acc e <;> rfl
  | cons x xs ih =>
    intro acc
    show Except.bind (parseImage name acc x) _ = Except.bind (Except.bind (parseImage name acc x) _) _
    cases parseImage name acc x with
    | error err => rfl
    | ok b => exact ih b

theorem selectImage_snoc (name : String) (e : CatalogEntry) (xs : List CatalogEntry) :
    selectImage name (xs ++ [e])
      = Except.bind (selectImage name xs) (fun b => parseImage name b e) :=
  selectImage_snoc_aux name e xs none

/-- Full characterization of the selection fold for one name, under the
assumption that every entry of that name parses: either no entry of the
name occurs and the result is `None`, or the result is an entry of the
name splitting the catalog into a prefix whose same-name entries compare
`≤` it and a suffix whose same-name entries compare `<` it - i.e. the
selected entry has maximum precedence and is the *last* of the maxima in
list order. -/
theorem selectImage_characterization (name : String) :
    ∀ catalog : List CatalogEntry,
      (∀ e ∈ catalog, e.1 = name → (parseSemVer e.2).isSome = true) →
      (selectImage name catalog = Except.ok none ∧ ∀ e ∈ catalog, ¬ e.1 = name) ∨
      (∃ sel pre post v,
        selectImage name catalog = Except.ok (some sel) ∧
        catalog = pre ++ sel :: post ∧ sel.1 = name ∧ parseSemVer sel.2 = some v ∧
        (∀ e ∈ pre, e.1 = name → ∀ w, parseSemVer e.2 = some w →
          SemVer.key w ≤ SemVer.key v) ∧
        (∀ e ∈ post, e.1 = name → ∀ w, parseSemVer e.2 = some w →
          SemVer.key w < SemVer.key v)) := by
  intro catalog
  induction catalog using List.reverseRecOn with
  | nil =>
    intro _
    left
    exact ⟨rfl, by simp⟩
  | append_singleton xs e ih =>
    intro hparse
    have hparse' : ∀ e' ∈ xs, e'.1 = name → (parseSemVer e'.2).isSome = true := by
      intro e' he' h
      exact hparse e' (List.mem_append_left _ he') h
    have hsnoc := selectImage_snoc name e xs
    rcases ih hparse' with ⟨hfold, hnone⟩ | ⟨sel, pre, post, v, hfold, hdec, hname, hv, hpre, hpost⟩
    · by_cases he : e.1 = name
      · right
        have hes : (parseSemVer e.2).isSome = true := hparse e (by simp) he
        rcases Option.isSome_iff_exists.mp hes with ⟨w, hw⟩
        refine ⟨e, xs, [], w, ?_, by simp, he, hw, ?_, by simp⟩
        · rw [hsnoc, hfold]
          show parseImage name none e = Except.ok (some e)
          simp [parseImage, he]
        · intro e' he' hm _ _
          exact absurd hm (hnone e' he')
      · left
        refine ⟨?_, ?_⟩
        · rw [hsnoc, hfold]
          show parseImage name none e = Except.ok none
          simp [parseImage, he]
        · intro e' he'
          rcases List.mem_append.mp he' with h | h
          · exact hnone e' h
          · rw [List.mem_singleton.mp h]
            exact he
    · by_cases he : e.1 = name
      · have hes : (parseSemVer e.2).isSome = true := hparse e (by simp) he
        rcases Option.isSome_iff_exists.mp hes with ⟨w, hw⟩
        have hcmp : semverMatchGe e.2 sel.2
            = Except.ok (decide (SemVer.key v ≤ SemVer.key w)) := by
          simp [semverMatchGe, hw, hv]
        by_cases hle : SemVer.key v ≤ SemVer.key w
        · right
          refine ⟨e, xs, [], w, ?_, by simp, he, hw, ?_, by simp⟩
          · rw [hsnoc, hfold]
            show parseImage name (some sel) e = Except.ok (some e)
            rw [parseImage, if_pos he, hcmp, decide_eq_true hle]
          · intro e' he' hm w' hw'
            rw [hdec] at he'
            rcases List.mem_append.mp he' with h | h
            · exact le_trans (hpre e' h hm w' hw') hle
            · rcases List.mem_cons.mp h with h | h
              · subst h
                rw [hv] at hw'
                injection hw' with hww
                rw [← hww]
                exact hle
              · exact le_trans (le_of_lt (hpost e' h hm w' hw')) hle
        · right
          refine ⟨sel, pre, post ++ [e], v, ?_, ?_, hname, hv, hpre, ?_⟩
          · rw [hsnoc, hfold]
            show parseImage name (some sel) e = Except.ok (some sel)
            rw [parseImage, if_pos he, hcmp, decide_eq_false hle]
          · rw [hdec]
            simp
          · intro e' he' hm w' hw'
            rcases List.mem_append.mp he' with h | h
            · exact hpost e' h hm w' hw'
            · rw [List.mem_singleton.mp h] at hw'
              rw [hw] at hw'
              injection hw' with hww
              rw [← hww]
              exact not_le.mp hle
      · right
        refine ⟨sel, pre, post ++ [e], v, ?_, ?_, hname, hv, hpre, ?_⟩
        · rw [hsnoc, hfold]
          show parseImage name (some sel) e = Except.ok (some sel)
          simp [parseImage, he]
        · rw [hdec]
          simp
        · intro e' he' hm w' hw'
          rcases List.mem_append.mp he' with h | h
          · exact hpost e' h hm w' hw'
          · rw [List.mem_singleton.mp h] at hm
            exact absurd hm he

/-- C4 amended: for every flat catalog in which all entries of the
required name parse as semantic versions and at least one such entry
exists, the selection returns an entry of that name of maximum
semantic-version precedence; when several entries of the name share the
maximum precedence, the one selected is the *last* encountered in list
order (every same-name entry before it compares `≤`, every same-name
entry after it compares `<`). -/
theorem select_max_precedence_ties_last (name : String) (catalog : List CatalogEntry)
    (hparse : ∀ e ∈ catalog, e.1 = name → (parseSemVer e.2).isSome = true)
    (hex : ∃ e ∈ catalog, e.1 = name) :
    ∃ sel pre post v,
      selectImage name catalog = Except.ok (some sel) ∧
      catalog = pre ++ sel :: post ∧ sel.1 = name ∧ parseSemVer sel.2 = some v ∧
      (∀ e ∈ pre, e.1 = name → ∀ w, parseSemVer e.2 = some w →
        SemVer.key w ≤ SemVer.key v) ∧
      (∀ e ∈ post, e.1 = name → ∀ w, parseSemVer e.2 = some w →
        SemVer.key w < SemVer.key v) := by
  rcases selectImage_characterization name catalog hparse with ⟨_, hnone⟩ | h
  · rcases hex with ⟨e, he, hm⟩
    exact absurd hm (hnone e he)
  · exact h

theorem select_max_precedence_ties_last_witness :
    (∀ e ∈ [(("cmeapi", "1.2.0") : CatalogEntry), ("cmeapi", "1.3.0"), ("cmehw", "2.0.0")],
      e.1 = "cmeapi" → (parseSemVer e.2).isSome = true) ∧
    (∃ e ∈ [(("cmeapi", "1.2.0") : CatalogEntry), ("cmeapi", "1.3.0"), ("cmehw", "2.0.0")],
      e.1 = "cmeapi") ∧
    (∃ sel pre post v,
      selectImage "cmeapi" [("cmeapi", "1.2.0"), ("cmeapi", "1.3.0"), ("cmehw", "2.0.0")]
          = Except.ok (some sel) ∧
      [(("cmeapi", "1.2.0") : CatalogEntry), ("cmeapi", "1.3.0"), ("cmehw", "2.0.0")]
          = pre ++ sel :: post ∧
      sel.1 = "cmeapi" ∧ parseSemVer sel.2 = some v ∧
      (∀ e ∈ pre, e.1 = "cmeapi" → ∀ w, parseSemVer e.2 = some w →
        SemVer.key w ≤ SemVer.key v) ∧
      (∀ e ∈ post, e.1 = "cmeapi" → ∀ w, parseSemVer e.2 = some w →
        SemVer.key w < SemVer.key v)) :=
  ⟨by decide, by decide,
   select_max_precedence_ties_last "cmeapi"
     [("cmeapi", "1.2.0"), ("cmeapi", "1.3.0"), ("cmehw", "2.0.0")]
     (by decide) (by decide)⟩

end CmeInit
